import Mathlib

/-!
Verification of the BrainDeck Leitner scheduling core.

Shallow embedding of `src/lib/leitner.ts` (the scheduler core), the card
data shape from `src/types/flashcard.ts`, and the per-card reset performed
by `resetDeck` in `src/hooks/useFlashCards.tsx`.

Modelling choices:
* A JavaScript `Date` is modelled as a calendar day index (`day`, local
  time, days since an arbitrary epoch) together with the milliseconds
  elapsed within that day (`msOfDay`).  `setDate(getDate() + n)` adds `n`
  calendar days and preserves the time of day; `setHours(0,0,0,0)`
  truncates to the start of the day; `Date` comparison is the
  lexicographic order on `(day, msOfDay)`, matching epoch-millisecond
  order.  DST shifts are abstracted away (day arithmetic is exact).
* The TypeScript `LeitnerLevel` union type `0|1|2|3|4|5` is erased at
  runtime, so levels are modelled as plain `Nat` and the range invariant
  is proved, not assumed.  A `Record<LeitnerLevel, number>` lookup at a
  key outside the union is `undefined`; this is modelled by an `Option`
  result from `LEITNER_INTERVALS`.
* Ambient effects are made explicit parameters: `new Date()` becomes a
  `now : DateTime` argument and `crypto.randomUUID()` becomes an
  `id : String` argument supplied by the (external) generator.
* `nextReviewDate` is stored as an ISO string and re-parsed on use; the
  core assumes this round-trip is lossless, so it is modelled as the
  `DateTime` itself.
* `averageLevel` is a JS number; it is modelled in `ℚ`, with
  `Math.round` modelled as `⌊q + 1/2⌋` (round half toward +∞, which for
  the non-negative values arising here is round half up).
-/

/-- Local-time date-time: calendar day index plus milliseconds within the day. -/
structure DateTime where
  day : Int
  msOfDay : Nat
deriving DecidableEq, Repr

/-- Model of `d.setHours(0,0,0,0)`: truncate to the start of the calendar day. -/
def startOfDay (d : DateTime) : DateTime :=
  { day := d.day, msOfDay := 0 }

/-- Model of `d.setDate(d.getDate() + n)`: advance `n` calendar days, keeping
the time of day. -/
def addDays (d : DateTime) (n : Nat) : DateTime :=
  { day := d.day + n, msOfDay := d.msOfDay }

/-- JS `Date` comparison `a <= b` (epoch-millisecond order). -/
def dateLe (a b : DateTime) : Bool :=
  decide (a.day < b.day ∨ (a.day = b.day ∧ a.msOfDay ≤ b.msOfDay))

/-- The user's self-rated recall, a closed two-valued choice (`ConfidenceScore`). -/
inductive ConfidenceScore where
  | forgot
  | know
deriving DecidableEq, Repr

/-- The `FlashCard` entity (`src/types/flashcard.ts`).  `level` is runtime-erased
to a plain natural number; date strings are modelled as `DateTime`. -/
structure FlashCard where
  id : String
  question : String
  answer : String
  level : Nat
  nextReviewDate : DateTime
  lastReviewDate : Option DateTime
  createdAt : DateTime
  reviewCount : Nat
deriving DecidableEq, Repr

/-- Result of a review action (`ReviewResult` in `src/types/flashcard.ts`). -/
structure ReviewResult where
  card : FlashCard
  previousLevel : Nat
  newLevel : Nat
  nextReviewDate : DateTime
deriving DecidableEq, Repr

/-- Deck statistics returned by `calculateDeckStats`. -/
structure DeckStats where
  totalCards : Nat
  cardsToReview : Nat
  masteredCards : Nat
  averageLevel : Rat
deriving DecidableEq, Repr

/-- The fixed level → interval-days table `LEITNER_INTERVALS`.  A lookup at
a key outside `0..5` is `undefined` in JS, hence `none`. -/
def LEITNER_INTERVALS : Nat → Option Nat
  | 0 => some 0
  | 1 => some 1
  | 2 => some 3
  | 3 => some 7
  | 4 => some 14
  | 5 => some 30
  | _ => none

/-- Model of `calculateNextReviewDate(level, fromDate)`: add the interval to
`fromDate`, then truncate to the start of that day.  An out-of-range level
has `undefined` interval, so the date arithmetic produces an Invalid Date
and `toISOString()` throws; that failure is modelled as `none`. -/
def calculateNextReviewDate (level : Nat) (fromDate : DateTime) : Option DateTime :=
  match LEITNER_INTERVALS level with
  | some interval => some (startOfDay (addDays fromDate interval))
  | none => none

/-- Model of `calculateNewLevel(currentLevel, confidence)`: reset to 0 on
`forgot`, else `Math.min(currentLevel + 1, 5)`. -/
def calculateNewLevel (currentLevel : Nat) (confidence : ConfidenceScore) : Nat :=
  match confidence with
  | .forgot => 0
  | .know => min (currentLevel + 1) 5

/-- Model of `reviewCard(card, confidence)`: compute the new level and next
review date, and return the updated card together with the transition
summary.  The ambient `new Date()` is the explicit `now`; the source's
`previousLevel` and `newLevel` `const` bindings are inlined. -/
def reviewCard (card : FlashCard) (confidence : ConfidenceScore) (now : DateTime) :
    Option ReviewResult :=
  match calculateNextReviewDate (calculateNewLevel card.level confidence) now with
  | none => none
  | some nextReviewDate =>
      some
        { card :=
            { card with
              level := calculateNewLevel card.level confidence
              nextReviewDate := nextReviewDate
              lastReviewDate := some now
              reviewCount := card.reviewCount + 1 }
          previousLevel := card.level
          newLevel := calculateNewLevel card.level confidence
          nextReviewDate := nextReviewDate }

/-- Model of `isCardDue(card)`: true iff the card's next review date is not
after the start of the current day.  The ambient `new Date()` is `now`. -/
def isCardDue (card : FlashCard) (now : DateTime) : Bool :=
  dateLe card.nextReviewDate (startOfDay now)

/-- Model of `getDueCards(cards)`: the order-preserving filter of due cards. -/
def getDueCards (cards : List FlashCard) (now : DateTime) : List FlashCard :=
  cards.filter (fun card => isCardDue card now)

/-- Model of `Math.round` on a rational: nearest integer, half rounded toward +∞. -/
def jsRound (q : Rat) : Int :=
  ⌊q + 1 / 2⌋

/-- Model of `calculateDeckStats(cards)`: totals, due count, mastered count,
and the average level rounded to one decimal place. -/
def calculateDeckStats (cards : List FlashCard) (now : DateTime) : DeckStats :=
  let totalCards := cards.length
  let cardsToReview := (getDueCards cards now).length
  let masteredCards := (cards.filter (fun card => card.level == 5)).length
  let averageLevel : Rat :=
    if totalCards > 0 then
      ((cards.foldl (fun sum card => sum + card.level) 0 : Nat) : Rat) / (totalCards : Rat)
    else 0
  { totalCards := totalCards
    cardsToReview := cardsToReview
    masteredCards := masteredCards
    averageLevel := (jsRound (averageLevel * 10) : Rat) / 10 }

/-- Model of `createNewCard(question, answer)`: a fresh card at level 0, due
at the start of the current day.  `crypto.randomUUID()` and `new Date()`
are the explicit `id` and `now`. -/
def createNewCard (question answer : String) (id : String) (now : DateTime) : FlashCard :=
  { id := id
    question := question
    answer := answer
    level := 0
    nextReviewDate := startOfDay now
    lastReviewDate := none
    createdAt := now
    reviewCount := 0 }

/-- The per-card reset performed by `resetDeck` in `useFlashCards.tsx`:
level 0, due at the start of the current day, review history cleared,
content and identity preserved. -/
def resetCard (card : FlashCard) (now : DateTime) : FlashCard :=
  { card with
    level := 0
    nextReviewDate := startOfDay now
    lastReviewDate := none
    reviewCount := 0 }

/-- The spec's level → interval-days table `{0:0, 1:1, 2:3, 3:7, 4:14, 5:30}`,
total over the valid levels (spec wording, for comparison with the source's
`LEITNER_INTERVALS`). -/
def intervalDays : Nat → Nat
  | 0 => 0
  | 1 => 1
  | 2 => 3
  | 3 => 7
  | 4 => 14
  | _ => 30

/-- A card at a given level, used to build concrete decks for the statistics
examples. -/
def mkLevelCard (l : Nat) : FlashCard :=
  { createNewCard "q" "a" "i" ⟨0, 0⟩ with level := l }

/-- Creation moment of the round-trip scenario: 10:00 on day 0. -/
def c7t0 : DateTime := ⟨0, 36000000⟩

/-- First review moment: noon on day 0 (the card is due that day). -/
def c7t1 : DateTime := ⟨0, 43200000⟩

/-- Second review moment: noon on day 1 (the due day after a 1-day interval). -/
def c7t2 : DateTime := ⟨1, 43200000⟩

/-- Third review moment: noon on day 4 (the due day after a 3-day interval). -/
def c7t3 : DateTime := ⟨4, 43200000⟩

/-- Fourth review moment: noon on day 11 (the due day after a 7-day interval). -/
def c7t4 : DateTime := ⟨11, 43200000⟩

/-- Fifth review moment: noon on day 25 (the due day after a 14-day interval). -/
def c7t5 : DateTime := ⟨25, 43200000⟩

/-- The freshly created scenario card. -/
def c7card0 : FlashCard := createNewCard "Q" "A" "card-1" c7t0

/-- Scenario card after the first successful review. -/
def c7card1 : FlashCard :=
  { c7card0 with
    level := 1
    nextReviewDate := ⟨1, 0⟩
    lastReviewDate := some c7t1
    reviewCount := 1 }

/-- Scenario card after the second successful review. -/
def c7card2 : FlashCard :=
  { c7card1 with
    level := 2
    nextReviewDate := ⟨4, 0⟩
    lastReviewDate := some c7t2
    reviewCount := 2 }

/-- Scenario card after the third successful review. -/
def c7card3 : FlashCard :=
  { c7card2 with
    level := 3
    nextReviewDate := ⟨11, 0⟩
    lastReviewDate := some c7t3
    reviewCount := 3 }

/-- Scenario card after the fourth successful review. -/
def c7card4 : FlashCard :=
  { c7card3 with
    level := 4
    nextReviewDate := ⟨25, 0⟩
    lastReviewDate := some c7t4
    reviewCount := 4 }

/-- Scenario card after the fifth review (`forgot`). -/
def c7card5 : FlashCard :=
  { c7card4 with
    level := 0
    nextReviewDate := ⟨25, 0⟩
    lastReviewDate := some c7t5
    reviewCount := 5 }

/-- Every level transition lands in the valid range `[0,5]`, whatever the
input level. -/
theorem calculateNewLevel_le_five (l : Nat) (c : ConfidenceScore) :
    calculateNewLevel l c ≤ 5 := by
  cases c with
  | forgot => exact Nat.zero_le 5
  | know => exact Nat.min_le_right _ _

/-- For an in-range level the interval lookup succeeds, and the result of
`calculateNextReviewDate` is its total description. -/
theorem calculateNextReviewDate_eq_of_le (l : Nat) (h : l ≤ 5) (d : DateTime) :
    calculateNextReviewDate l d
      = some (startOfDay (addDays d ((LEITNER_INTERVALS l).getD 0))) := by
  interval_cases l <;> rfl

/-- Characterization of `reviewCard`: it always succeeds, returning exactly
the updated card and transition summary. -/
theorem reviewCard_eq (card : FlashCard) (c : ConfidenceScore) (now : DateTime) :
    reviewCard card c now =
      some
        { card :=
            { card with
              level := calculateNewLevel card.level c
              nextReviewDate :=
                startOfDay (addDays now
                  ((LEITNER_INTERVALS (calculateNewLevel card.level c)).getD 0))
              lastReviewDate := some now
              reviewCount := card.reviewCount + 1 }
          previousLevel := card.level
          newLevel := calculateNewLevel card.level c
          nextReviewDate :=
            startOfDay (addDays now
              ((LEITNER_INTERVALS (calculateNewLevel card.level c)).getD 0)) } := by
  unfold reviewCard
  rw [calculateNextReviewDate_eq_of_le _ (calculateNewLevel_le_five card.level c) now]

/-- C1: for every current level L in [0,5], `calculateNewLevel` maps `forgot`
to 0 unconditionally and `know` to `min (L + 1) 5`; in particular level 5
saturates at 5 under `know`. -/
theorem calculateNewLevel_transition (L : Nat) (h : L ≤ 5) :
    calculateNewLevel L ConfidenceScore.forgot = 0
    ∧ calculateNewLevel L ConfidenceScore.know = min (L + 1) 5
    ∧ calculateNewLevel 5 ConfidenceScore.know = 5 :=
  ⟨rfl, rfl, rfl⟩

/-- Witness for C1 at the concrete level 3. -/
theorem calculateNewLevel_transition_witness :
    calculateNewLevel 3 ConfidenceScore.forgot = 0
    ∧ calculateNewLevel 3 ConfidenceScore.know = min (3 + 1) 5
    ∧ calculateNewLevel 5 ConfidenceScore.know = 5 :=
  calculateNewLevel_transition 3 (by decide)

/-- C2: `reviewCard` always succeeds and returns an updated card that keeps
`id`, `question`, `answer` and `createdAt`, sets `level` to the new level,
`nextReviewDate` to the recomputed due date, `lastReviewDate` to the review
moment, and increments `reviewCount` by exactly one (the input card, a pure
value, is untouched). -/
theorem reviewCard_frame (card : FlashCard) (c : ConfidenceScore) (now : DateTime) :
    ∃ r, reviewCard card c now = some r
      ∧ r.card.id = card.id
      ∧ r.card.question = card.question
      ∧ r.card.answer = card.answer
      ∧ r.card.createdAt = card.createdAt
      ∧ r.card.level = calculateNewLevel card.level c
      ∧ calculateNextReviewDate (calculateNewLevel card.level c) now
          = some r.card.nextReviewDate
      ∧ r.card.lastReviewDate = some now
      ∧ r.card.reviewCount = card.reviewCount + 1 := by
  refine ⟨_, reviewCard_eq card c now, rfl, rfl, rfl, rfl, rfl, ?_, rfl, rfl⟩
  exact calculateNextReviewDate_eq_of_le _ (calculateNewLevel_le_five card.level c) now

/-- C3: for every level L in [0,5] and every reference date-time D,
`calculateNextReviewDate` yields `startOfDay D` advanced by the spec's
interval table, is independent of the time-of-day component of D, and at
level 0 yields exactly `startOfDay D`. -/
theorem calculateNextReviewDate_due (L : Nat) (h : L ≤ 5) (D : DateTime) :
    calculateNextReviewDate L D = some (addDays (startOfDay D) (intervalDays L))
    ∧ calculateNextReviewDate L D = calculateNextReviewDate L (startOfDay D)
    ∧ calculateNextReviewDate 0 D = some (startOfDay D) := by
  interval_cases L <;>
    simp [calculateNextReviewDate, LEITNER_INTERVALS, intervalDays, addDays, startOfDay]

/-- Witness for C3 at level 3 and a date-time with a nonzero time of day. -/
theorem calculateNextReviewDate_due_witness :
    calculateNextReviewDate 3 ⟨10, 12345⟩
        = some (addDays (startOfDay ⟨10, 12345⟩) (intervalDays 3))
    ∧ calculateNextReviewDate 3 ⟨10, 12345⟩
        = calculateNextReviewDate 3 (startOfDay ⟨10, 12345⟩)
    ∧ calculateNextReviewDate 0 ⟨10, 12345⟩ = some (startOfDay ⟨10, 12345⟩) :=
  calculateNextReviewDate_due 3 (by decide) ⟨10, 12345⟩

/-- C4: `isCardDue` holds exactly when the card's next review date is at or
before the start of the day of the check time, and the verdict never flips
later within the same calendar day. -/
theorem isCardDue_day_stable :
    (∀ card asOf, isCardDue card asOf = dateLe card.nextReviewDate (startOfDay asOf))
    ∧ (∀ card t1 t2, t1.day = t2.day → dateLe t1 t2 = true →
        isCardDue card t1 = true → isCardDue card t2 = true) := by
  refine ⟨fun card asOf => rfl, fun card t1 t2 hday _ h => ?_⟩
  have hsod : startOfDay t1 = startOfDay t2 := by
    simp [startOfDay, hday]
  simpa [isCardDue, hsod] using h

/-- Witness for C4 on a concrete card checked at two moments of the same day. -/
theorem isCardDue_day_stable_witness :
    isCardDue (createNewCard "q" "a" "i" ⟨0, 5⟩) ⟨0, 10⟩ = true :=
  isCardDue_day_stable.2 (createNewCard "q" "a" "i" ⟨0, 5⟩) ⟨0, 5⟩ ⟨0, 10⟩ rfl
    (by decide) (by decide)

/-- C5: `calculateDeckStats` returns the deck size, the due count, the
mastered count, and an average level that is 0 on the empty deck and the
rounded arithmetic mean otherwise; levels [1,2] average to 1.5 and levels
[1,1,2] to 1.3. -/
theorem calculateDeckStats_correct :
    (∀ cards now,
        (calculateDeckStats cards now).totalCards = cards.length
        ∧ (calculateDeckStats cards now).cardsToReview = (getDueCards cards now).length
        ∧ (calculateDeckStats cards now).masteredCards
            = (cards.filter (fun card => card.level == 5)).length)
    ∧ (∀ cards now, cards ≠ [] →
        (calculateDeckStats cards now).averageLevel
          = (jsRound ((((cards.foldl (fun sum card => sum + card.level) 0 : Nat) : Rat)
              / (cards.length : Rat)) * 10) : Rat) / 10)
    ∧ (∀ now, calculateDeckStats [] now = ⟨0, 0, 0, 0⟩)
    ∧ (∀ now, (calculateDeckStats [mkLevelCard 1, mkLevelCard 2] now).averageLevel = 3 / 2)
    ∧ (∀ now,
        (calculateDeckStats [mkLevelCard 1, mkLevelCard 1, mkLevelCard 2] now).averageLevel
          = 13 / 10) := by
  refine ⟨fun cards now => ⟨rfl, rfl, rfl⟩, fun cards now h => ?_, fun now => ?_,
    fun now => ?_, fun now => ?_⟩
  · simp only [calculateDeckStats]
    rw [if_pos (List.length_pos.mpr h)]
  · simp [calculateDeckStats, getDueCards, jsRound]
    norm_num
  · simp [calculateDeckStats, mkLevelCard, createNewCard, jsRound]
    norm_num
  · simp [calculateDeckStats, mkLevelCard, createNewCard, jsRound]
    norm_num

/-- Witness for C5 on the concrete two-card deck with levels [1,2]. -/
theorem calculateDeckStats_correct_witness :
    (calculateDeckStats [mkLevelCard 1, mkLevelCard 2] ⟨0, 0⟩).averageLevel
      = (jsRound (((([mkLevelCard 1, mkLevelCard 2].foldl
            (fun sum card => sum + card.level) 0 : Nat) : Rat)
          / (([mkLevelCard 1, mkLevelCard 2].length : Nat) : Rat)) * 10) : Rat) / 10 :=
  calculateDeckStats_correct.2.1 [mkLevelCard 1, mkLevelCard 2] ⟨0, 0⟩
    (List.cons_ne_nil _ _)

/-- C6: the level of a card produced by `createNewCard`, `reviewCard` or
`resetCard` is always in [0,5], and the only level changes are the two
transition rules of `calculateNewLevel` (creation and reset pin the level
to 0). -/
theorem level_range_invariant :
    (∀ question answer id now, (createNewCard question answer id now).level = 0
        ∧ (createNewCard question answer id now).level ≤ 5)
    ∧ (∀ card c now, ∃ r, reviewCard card c now = some r
        ∧ r.card.level = calculateNewLevel card.level c
        ∧ r.card.level ≤ 5)
    ∧ (∀ card now, (resetCard card now).level = 0 ∧ (resetCard card now).level ≤ 5) := by
  refine ⟨fun question answer id now => ⟨rfl, Nat.zero_le 5⟩, fun card c now => ?_,
    fun card now => ⟨rfl, Nat.zero_le 5⟩⟩
  exact ⟨_, reviewCard_eq card c now, rfl, calculateNewLevel_le_five card.level c⟩

/-- C7: the concrete round-trip scenario.  A fresh card is due on its
creation day; four `know` reviews, each on the due day, step the level
0→1→2→3→4 with next-due intervals of 1, 3, 7 and 14 days and bring
`reviewCount` to 4; a fifth `forgot` review resets the level to 0, makes
the card due at the start of that day, and brings `reviewCount` to 5. -/
theorem review_roundtrip_scenario :
    c7card0.level = 0 ∧ c7card0.reviewCount = 0
    ∧ isCardDue c7card0 c7t0 = true
    ∧ isCardDue c7card0 c7t1 = true
    ∧ reviewCard c7card0 ConfidenceScore.know c7t1 = some ⟨c7card1, 0, 1, ⟨1, 0⟩⟩
    ∧ c7card1.nextReviewDate = addDays (startOfDay c7t1) 1
    ∧ isCardDue c7card1 c7t2 = true
    ∧ reviewCard c7card1 ConfidenceScore.know c7t2 = some ⟨c7card2, 1, 2, ⟨4, 0⟩⟩
    ∧ c7card2.nextReviewDate = addDays (startOfDay c7t2) 3
    ∧ isCardDue c7card2 c7t3 = true
    ∧ reviewCard c7card2 ConfidenceScore.know c7t3 = some ⟨c7card3, 2, 3, ⟨11, 0⟩⟩
    ∧ c7card3.nextReviewDate = addDays (startOfDay c7t3) 7
    ∧ isCardDue c7card3 c7t4 = true
    ∧ reviewCard c7card3 ConfidenceScore.know c7t4 = some ⟨c7card4, 3, 4, ⟨25, 0⟩⟩
    ∧ c7card4.nextReviewDate = addDays (startOfDay c7t4) 14
    ∧ c7card4.level = 4 ∧ c7card4.reviewCount = 4
    ∧ isCardDue c7card4 c7t5 = true
    ∧ reviewCard c7card4 ConfidenceScore.forgot c7t5 = some ⟨c7card5, 4, 0, startOfDay c7t5⟩
    ∧ c7card5.level = 0 ∧ c7card5.nextReviewDate = startOfDay c7t5
    ∧ c7card5.reviewCount = 5 := by
  decide

/-- C8: `createNewCard` yields a card at level 0, due at the start of the
creation day, with no review history, carrying the freshly generated id,
and due at every moment of its creation day. -/
theorem createNewCard_initial (question answer id : String) (now : DateTime) :
    (createNewCard question answer id now).level = 0
    ∧ (createNewCard question answer id now).nextReviewDate = startOfDay now
    ∧ (createNewCard question answer id now).lastReviewDate = none
    ∧ (createNewCard question answer id now).reviewCount = 0
    ∧ (createNewCard question answer id now).id = id
    ∧ (createNewCard question answer id now).createdAt = now
    ∧ ∀ t : DateTime, t.day = now.day → isCardDue (createNewCard question answer id now) t = true := by
  refine ⟨rfl, rfl, rfl, rfl, rfl, rfl, fun t ht => ?_⟩
  simp only [isCardDue, createNewCard, startOfDay, dateLe, decide_eq_true_eq]
  omega

/-- Witness for C8 on a concrete creation moment, checked later the same day. -/
theorem createNewCard_initial_witness :
    isCardDue (createNewCard "q2" "a2" "i2" ⟨3, 500⟩) ⟨3, 999⟩ = true :=
  (createNewCard_initial "q2" "a2" "i2" ⟨3, 500⟩).2.2.2.2.2.2 ⟨3, 999⟩ rfl

/-- C9 counterexample: an out-of-range level is representable at runtime,
and `calculateNewLevel` does not fail on it — it silently clamps the `know`
path to 5 and resets the `forgot` path to 0, contrary to the claimed
fail-fast behavior. -/
theorem out_of_range_clamp_counterexample :
    calculateNewLevel 7 ConfidenceScore.know = 5
    ∧ calculateNewLevel 7 ConfidenceScore.forgot = 0 := by
  decide

/-- C9 amended: for a level above 5, `calculateNewLevel` silently yields the
in-range values 5 (`know`) and 0 (`forgot`) without any error, while the
interval table has no entry, so `calculateNextReviewDate` has no valid
result (in JS its invalid-date serialization throws, which is not a
descriptive precondition error). -/
theorem out_of_range_behavior (L : Nat) (h : 5 < L) :
    calculateNewLevel L ConfidenceScore.know = 5
    ∧ calculateNewLevel L ConfidenceScore.forgot = 0
    ∧ LEITNER_INTERVALS L = none
    ∧ ∀ D, calculateNextReviewDate L D = none := by
  obtain ⟨n, rfl⟩ : ∃ n, L = n + 6 := ⟨L - 6, by omega⟩
  refine ⟨?_, rfl, rfl, fun D => rfl⟩
  show min (n + 6 + 1) 5 = 5
  omega

/-- Witness for the amended C9 at the concrete level 7. -/
theorem out_of_range_behavior_witness :
    calculateNewLevel 7 ConfidenceScore.know = 5
    ∧ calculateNewLevel 7 ConfidenceScore.forgot = 0
    ∧ LEITNER_INTERVALS 7 = none
    ∧ ∀ D, calculateNextReviewDate 7 D = none :=
  out_of_range_behavior 7 (by decide)

/-- C10: the `ReviewResult` of `reviewCard` is internally coherent —
`previousLevel` is the input card's level, `newLevel` is the updated card's
level, and `nextReviewDate` is the updated card's next review date. -/
theorem reviewResult_coherent (card : FlashCard) (c : ConfidenceScore) (now : DateTime) :
    ∃ r, reviewCard card c now = some r
      ∧ r.previousLevel = card.level
      ∧ r.newLevel = r.card.level
      ∧ r.nextReviewDate = r.card.nextReviewDate :=
  ⟨_, reviewCard_eq card c now, rfl, rfl, rfl⟩
